import Mathlib

/-!
Shallow embedding of the BennSauce game server (server.js) for checking its
specification. Positions, velocities, timestamps and hit points are JavaScript
doubles; here they are modelled as rationals, with the special values NaN and
the infinities modelled explicitly where the code can actually meet them
(the damage validator). Randomness (Math.random) and the wall clock
(Date.now) are passed in as explicit arguments. Socket.io fan-out is
modelled by a destination tag per emitted event together with the room
membership of each client: a socket is a member of the room named by its own
socket id and of every room it joined via socket.join.
-/

namespace BennSauce

/-- JavaScript numeric values as seen by the damage validator: NaN, the two
infinities, or a finite value (modelled as a rational). -/
inductive JSNum where
  | nan
  | posInf
  | negInf
  | fin (q : ℚ)
deriving DecidableEq

/-- JavaScript value handed to validateDamage: either not a number at all
(undefined, string, object, ...) or a number. -/
inductive JSVal where
  | notNum
  | num (v : JSNum)
deriving DecidableEq

/-- Result of the JavaScript test isNaN(v) on a number v. -/
def jsIsNaN : JSNum → Bool
  | .nan => true
  | _ => false

/-- JavaScript comparison v < c of a number v against a finite constant c;
NaN comparisons are false. -/
def jsLt : JSNum → ℚ → Bool
  | .nan, _ => false
  | .posInf, _ => false
  | .negInf, _ => true
  | .fin q, c => q < c

/-- JavaScript comparison v > c of a number v against a finite constant c;
NaN comparisons are false. -/
def jsGt : JSNum → ℚ → Bool
  | .nan, _ => false
  | .posInf, _ => true
  | .negInf, _ => false
  | .fin q, c => c < q

/-- JavaScript Math.floor, only ever applied on the branch where the value is
finite (the other constructors are unreachable there). -/
def jsFloor : JSNum → ℤ
  | .fin q => ⌊q⌋
  | _ => 0

/-- CONFIG.MAX_DAMAGE_PER_HIT from server.js. -/
def MAX_DAMAGE_PER_HIT : ℤ := 50000

/-- CONFIG.MAX_ATTACKS_PER_SECOND from server.js. -/
def MAX_ATTACKS_PER_SECOND : ℕ := 10

/-- CONFIG.MAX_PICKUPS_PER_SECOND from server.js. -/
def MAX_PICKUPS_PER_SECOND : ℕ := 20

/-- CONFIG.MAX_POSITION_UPDATES_PER_SECOND from server.js. -/
def MAX_POSITION_UPDATES_PER_SECOND : ℕ := 30

/-- CONFIG.RATE_LIMIT_WINDOW from server.js (milliseconds). -/
def RATE_LIMIT_WINDOW : ℚ := 1000

/-- CONFIG.MONSTER_SPEED from server.js. -/
def MONSTER_SPEED : ℚ := 4/5

/-- validateDamage(damage, attackerId) from server.js:
returns 0 for a non-number, NaN or negative value, caps at
MAX_DAMAGE_PER_HIT, else floors. -/
def validateDamage : JSVal → ℤ
  | .notNum => 0
  | .num v =>
    if jsIsNaN v || jsLt v 0 then 0
    else if jsGt v (MAX_DAMAGE_PER_HIT : ℚ) then MAX_DAMAGE_PER_HIT
    else jsFloor v

/-- JavaScript comparison damage > validatedDamage used for the isCritical
field of the monsterDamaged broadcast. -/
def jsGtInt : JSVal → ℤ → Bool
  | .notNum, _ => false
  | .num v, z => jsGt v (z : ℚ)

/-- Eviction loop of checkRateLimit: shift entries from the front of the
tracker while they are older than the window. -/
def evictOld (now : ℚ) (bucket : List ℚ) : List ℚ :=
  bucket.dropWhile (fun t => decide (RATE_LIMIT_WINDOW < now - t))

/-- checkRateLimit(odId, action, limit) from server.js, acting on the tracker
list of one (player, action) pair. Returns whether the action is admitted
together with the updated tracker: after eviction, reject if the tracker
already holds at least `limit` stamps, else append `now` and accept. -/
def checkRateLimit (now : ℚ) (bucket : List ℚ) (limit : ℕ) : Bool × List ℚ :=
  let tracker := evictOld now bucket
  if limit ≤ tracker.length then (false, tracker)
  else (true, tracker ++ [now])

/-- Server-side monster record, with the fields assigned by spawnMonster.
Fields the code leaves undefined at spawn (knockbackEndTime,
lastInteractionTime, targetPlayer, damage, originalMaxHp, originalDamage,
patrolSurfaceX, patrolSurfaceWidth) are Options. -/
structure Monster where
  id : String
  type : String
  x : ℚ
  y : ℚ
  hp : ℚ
  maxHp : ℚ
  direction : ℤ
  facing : String
  aiState : String
  aiType : String
  velocityX : ℚ
  velocityY : ℚ
  speed : ℚ
  isDead : Bool
  isMiniBoss : Bool
  isEliteMonster : Bool
  isTrialBoss : Bool
  isShiny : Bool
  width : ℚ
  height : ℚ
  mapWidth : ℚ
  groundY : ℚ
  spawnTime : ℚ
  lastUpdate : ℚ
  spawnX : ℚ
  spawnY : ℚ
  patrolSurfaceX : Option ℚ
  patrolSurfaceWidth : Option ℚ
  patrolMinX : ℚ
  patrolMaxX : ℚ
  originalMaxHp : Option ℚ
  originalDamage : Option ℚ
  damage : Option ℚ
  canJump : Bool
  jumpForce : ℚ
  isJumping : Bool
  aggroRange : ℚ
  chaseStartTime : ℚ
  knockbackEndTime : Option ℚ
  lastInteractionTime : Option ℚ
  targetPlayer : Option String
deriving DecidableEq

/-- Destination of an emitted socket.io event: io.to(room).emit is a room
send, socket.emit is a direct send to one socket. -/
inductive Dest where
  | toRoom (room : String)
  | toSocket (sid : String)
deriving DecidableEq

/-- Payloads of the server events the claims are about, with the fields the
code puts in each payload. -/
inductive Ev where
  | monsterSpawned (m : Monster)
  | monsterDamaged (id : String) (seq : Option ℚ) (damage : ℤ)
      (currentHp maxHp : ℚ) (attackerId : String)
      (knockbackVelocityX : ℚ) (isCritical : Bool)
  | monsterKilled (id : String) (lootRecipient : Option String)
  | itemPickedUp (itemId itemName : String) (x y : ℚ)
      (pickedUpBy pickedUpByName : String)
  | itemPickupRejected (itemId itemName reason : String)
  | partyGoldShare (amount : ℚ) (fromName : String)
  | partyGoldShareResult (originalAmount yourShare : ℚ) (memberCount : ℕ)
  | monsterTransformedElite (monsterId : String)
      (maxHp hp damage originalMaxHp originalDamage : ℚ)
deriving DecidableEq

/-- A connected socket: its socket id and the socket.io rooms it is a member
of. Socket.io puts every socket in the room named by its own id; this server
additionally calls socket.join(mapId), so a connected player's socket is in
exactly the rooms [socketId, mapId]. -/
structure Client where
  sid : String
  joined : List String
deriving DecidableEq

/-- Socket.io delivery: a socket receives an emitted event when the event is
addressed directly to it or to a room it is a member of. -/
def receives (c : Client) (e : Dest × Ev) : Bool :=
  match e.1 with
  | .toRoom r => c.joined.contains r
  | .toSocket s => c.sid == s

/-- The socket of a connected player on a map: member of its own id room and
of the map room it joined. -/
def clientOfPlayer (socketId mapId : String) : Client :=
  ⟨socketId, [socketId, mapId]⟩

/-- JavaScript `a || d` for an optional number a: undefined and 0 are falsy. -/
def jsOrQ : Option ℚ → ℚ → ℚ
  | some q, d => if q = 0 then d else q
  | none, d => d

/-- JavaScript `a || d` for an optional string a: undefined and the empty
string are falsy. -/
def jsOrStr : Option String → String → String
  | some s, d => if s = "" then d else s
  | none, d => d

/-- JavaScript `a || false` for an optional boolean a. -/
def jsOrB : Option Bool → Bool
  | some b => b
  | none => false

/-- Monster type catalog entry as supplied by the client in initMapMonsters
(every field may be absent). -/
structure MonsterTypeData where
  hp : Option ℚ
  speed : Option ℚ
  width : Option ℚ
  height : Option ℚ
  aiType : Option String
  isMiniBoss : Option Bool
  canJump : Option Bool
  jumpForce : Option ℚ
deriving DecidableEq

/-- Spawner data passed to spawnMonster (from client spawn positions or from
the remembered respawn context). -/
structure SpawnerData where
  x : Option ℚ
  y : Option ℚ
  surfaceX : Option ℚ
  surfaceWidth : Option ℚ
  mapWidth : Option ℚ
  groundY : Option ℚ
  maxHp : Option ℚ
deriving DecidableEq

/-- The Math.random() draws consumed by one spawnMonster call. -/
structure SpawnRand where
  xRand : ℚ
  dirRand : ℚ
  shinyRand : ℚ
deriving DecidableEq

/-- SHINY_CONFIG.spawnChance from server.js. -/
def SHINY_spawnChance : ℚ := 1/50

/-- SHINY_CONFIG.hpMultiplier from server.js. -/
def SHINY_hpMultiplier : ℚ := 3

/-- ELITE_CONFIG.excludedMapPrefixes from server.js. -/
def excludedMapStarts : List String := ["dewdrop", "pq"]

/-- JavaScript mapId.startsWith(p), expressed on the character lists. -/
def strStarts (s p : String) : Bool :=
  p.data.isPrefixOf s.data

/-- Excluded-map test used by the shiny roll and the elite promoter. -/
def isExcludedMap (mapId : String) : Bool :=
  excludedMapStarts.any (fun p => strStarts mapId p)

/-- EDGE_BUFFER constant of spawnMonster. -/
def EDGE_BUFFER : ℚ := 50

/-- MIN_PATROL_DISTANCE constant of spawnMonster. -/
def MIN_PATROL_DISTANCE : ℚ := 80

/-- spawnMonster(mapId, type, spawnerData) from server.js. The stored map
data fallbacks (mapSpawnData[mapId]?.mapWidth, ?.groundY) are passed as
explicit arguments, as are the fresh monster id and the random draws.
Returns the monster that is registered under its id, together with the
monsterSpawned broadcast to the map room. -/
def spawnMonster (mapId typ : String) (td : MonsterTypeData) (sd : SpawnerData)
    (storedMapWidth storedGroundY : Option ℚ) (monsterId : String)
    (r : SpawnRand) (now : ℚ) : Monster × List (Dest × Ev) :=
  let mapWidth := jsOrQ sd.mapWidth (jsOrQ storedMapWidth 1366)
  let groundY := jsOrQ sd.groundY (jsOrQ storedGroundY 300)
  let maxHp := jsOrQ td.hp (jsOrQ sd.maxHp 100)
  let speed := jsOrQ td.speed MONSTER_SPEED
  let monsterHeight := jsOrQ td.height 40
  let x := match sd.x with
    | some q => q
    | none => r.xRand * (mapWidth - 100) + 50
  let y := match sd.y with
    | some q => q
    | none => groundY - monsterHeight - 3
  let direction : ℤ := if (1:ℚ)/2 < r.dirRand then 1 else -1
  let aiType := jsOrStr td.aiType "patrolling"
  let base : Monster := {
    id := monsterId
    type := typ
    x := x
    y := y
    hp := maxHp
    maxHp := maxHp
    direction := direction
    facing := if direction = 1 then "right" else "left"
    aiState := if aiType = "static" then "idle" else "patrolling"
    aiType := aiType
    velocityX := 0
    velocityY := 0
    speed := speed
    isDead := false
    isMiniBoss := jsOrB td.isMiniBoss
    isEliteMonster := false
    isTrialBoss := false
    isShiny := false
    width := jsOrQ td.width 40
    height := monsterHeight
    mapWidth := mapWidth
    groundY := groundY
    spawnTime := now
    lastUpdate := now
    spawnX := x
    spawnY := y
    patrolSurfaceX := sd.surfaceX
    patrolSurfaceWidth := sd.surfaceWidth
    patrolMinX := 0
    patrolMaxX := 0
    originalMaxHp := none
    originalDamage := none
    damage := none
    canJump := jsOrB td.canJump
    jumpForce := jsOrQ td.jumpForce (-8)
    isJumping := false
    aggroRange := if jsOrB td.isMiniBoss then 350 else 250
    chaseStartTime := 0
    knockbackEndTime := none
    lastInteractionTime := none
    targetPlayer := none }
  let withBounds :=
    match sd.surfaceX, sd.surfaceWidth with
    | some sx, some sw =>
      let surfaceLeft := sx + EDGE_BUFFER
      let surfaceRight := sx + sw - EDGE_BUFFER
      let surfacePatrolWidth := surfaceRight - surfaceLeft
      if MIN_PATROL_DISTANCE ≤ surfacePatrolWidth then
        { base with patrolMinX := max 0 surfaceLeft
                    patrolMaxX := min (mapWidth - EDGE_BUFFER) surfaceRight }
      else
        let center := sx + sw / 2
        { base with patrolMinX := center - 10
                    patrolMaxX := center + 10
                    aiState := "idle" }
    | _, _ =>
      { base with patrolMinX := max 0 (x - 150)
                  patrolMaxX := min (mapWidth - EDGE_BUFFER) (x + 150) }
  let eligibleForShiny :=
    !withBounds.isMiniBoss && !withBounds.isTrialBoss && typ != "testDummy"
  let final :=
    if eligibleForShiny && !isExcludedMap mapId
        && decide (r.shinyRand < SHINY_spawnChance) then
      let newMax : ℚ := ((⌊withBounds.maxHp * SHINY_hpMultiplier⌋ : ℤ) : ℚ)
      { withBounds with isShiny := true, maxHp := newMax, hp := newMax }
    else withBounds
  (final, [(Dest.toRoom mapId, Ev.monsterSpawned final)])

/-- Per-tick environment of updateMonsterAI: the clock, the patrol-flip
random outcome, whether maps[mapId] exists, and the x position of the chased
target player when the lookup in the room finds it. -/
structure TickEnv where
  now : ℚ
  patrolFlip : Bool
  roomLive : Bool
  targetX : Option ℚ
deriving DecidableEq

/-- speedMultiplier constant of updateMonsterAI. -/
def speedMultiplier : ℚ := 21/5

/-- CHASE_TIMEOUT constant of updateMonsterAI (milliseconds). -/
def CHASE_TIMEOUT : ℚ := 5000

/-- CHASE_RANGE constant of updateMonsterAI. -/
def CHASE_RANGE : ℚ := 500

/-- De-aggro step of updateMonsterAI: demote to patrolling and re-center the
patrol bounds of the given radius on the current position. -/
def chaseDemote (m : Monster) (radius now : ℚ) : Monster :=
  { m with aiState := "patrolling"
           targetPlayer := none
           patrolMinX := max 0 (m.x - radius)
           patrolMaxX := min (m.mapWidth - m.width) (m.x + radius)
           spawnX := m.x
           lastUpdate := now }

/-- Chase move attempt of updateMonsterAI: move by direction times chase
speed (patrol speed times 1.5), committed only when the new position
respects the map boundaries, else only the velocity is zeroed. -/
def chaseMove (m : Monster) (dir : ℤ) (now : ℚ) : Monster :=
  let chaseSpeed :=
    (if m.speed = 0 then MONSTER_SPEED else m.speed) * speedMultiplier * (3/2)
  let moveAmount := (dir : ℚ) * chaseSpeed
  let newX := m.x + moveAmount
  if 0 ≤ newX ∧ newX ≤ m.mapWidth - m.width then
    { m with velocityX := moveAmount, x := newX, lastUpdate := now }
  else
    { m with velocityX := 0, lastUpdate := now }

/-- Chasing branch of updateMonsterAI. -/
def updateChase (m : Monster) (env : TickEnv) : Monster :=
  let now := env.now
  if CHASE_TIMEOUT < now - (m.lastInteractionTime.getD 0) then
    chaseDemote m ((m.patrolMaxX - m.patrolMinX) / 2) now
  else if m.targetPlayer.isSome && env.roomLive then
    match env.targetX with
    | some tx =>
      let targetX := tx + 15
      let dx := targetX - m.x
      let distFromSpawn := |m.x - m.spawnX|
      if distFromSpawn < CHASE_RANGE then
        let dir : ℤ := if 0 < dx then 1 else -1
        chaseMove
          { m with direction := dir
                   facing := if dir = 1 then "right" else "left" }
          dir now
      else
        chaseDemote m 100 now
    | none => { m with targetPlayer := none, lastUpdate := now }
  else { m with lastUpdate := now }

/-- Boundary-turn step of the patrol branch of updateMonsterAI. -/
def patrolTurn (m : Monster) (flip : Bool) : Monster :=
  if m.x ≤ m.patrolMinX + 30 then { m with direction := 1, facing := "right" }
  else if m.patrolMaxX - 30 ≤ m.x then { m with direction := -1, facing := "left" }
  else if flip then
    { m with direction := -m.direction
             facing := if -m.direction = 1 then "right" else "left" }
  else m

/-- Move step of the patrol branch of updateMonsterAI: commit the move when
the new position is inside the patrol bounds, else snap to the boundary,
zero the velocity and flip direction. -/
def patrolMove (m : Monster) : Monster :=
  let moveAmount :=
    (m.direction : ℚ) * (if m.speed = 0 then MONSTER_SPEED else m.speed) * speedMultiplier
  let newX := m.x + moveAmount
  if m.patrolMinX ≤ newX ∧ newX ≤ m.patrolMaxX then
    { m with velocityX := moveAmount, x := newX }
  else if newX < m.patrolMinX then
    { m with velocityX := 0, x := m.patrolMinX, direction := 1, facing := "right" }
  else
    { m with velocityX := 0, x := m.patrolMaxX, direction := -1, facing := "left" }

/-- Safety-net clamp of the patrol branch of updateMonsterAI: clamp x to
[0, mapWidth - width]. -/
def clampToMap (m : Monster) : Monster :=
  let m1 := if m.x < 0 then { m with x := 0, direction := 1, facing := "right" } else m
  if m1.mapWidth - m1.width < m1.x then
    { m1 with x := m1.mapWidth - m1.width, direction := -1, facing := "left" }
  else m1

/-- updateMonsterAI(monster, mapId) from server.js: static monsters and
monsters in knockback freeze only zero their velocity; chasing monsters run
the chase branch; patrolling or idle monsters run the patrol branch and end
forced to the patrolling state. -/
def updateMonsterAI (m : Monster) (env : TickEnv) : Monster :=
  if m.aiType = "static" then { m with velocityX := 0 }
  else if (match m.knockbackEndTime with
           | some kb => !decide (kb = 0) && decide (env.now < kb)
           | none => false) then
    { m with velocityX := 0 }
  else if m.aiState = "chasing" then updateChase m env
  else if m.aiState = "patrolling" ∨ m.aiState = "idle" then
    { clampToMap (patrolMove (patrolTurn m env.patrolFlip)) with
        aiState := "patrolling", lastUpdate := env.now }
  else { m with lastUpdate := env.now }

/-- Damage ledger update of damageMonster:
monsterDamage[monsterId][attackerId] = (old || 0) + validatedDamage. The
ledger of one monster is an association list in key insertion order, as
Object.entries iterates it. -/
def ledgerAdd (ledger : List (String × ℤ)) (who : String) (d : ℤ) : List (String × ℤ) :=
  if ledger.any (fun p => p.1 == who) then
    ledger.map (fun p => if p.1 = who then (p.1, p.2 + d) else p)
  else ledger ++ [(who, d)]

/-- Top-damager scan of killMonster: fold over Object.entries of the damage
ledger, replacing the candidate only on strictly greater damage, starting
from (null, 0). -/
def pickTopDamager (ledger : List (String × ℤ)) : Option String × ℤ :=
  ledger.foldl (fun acc p => if acc.2 < p.2 then (some p.1, p.2) else acc) (none, 0)

/-- State slice touched by damageMonster for one (monster, attacker) pair:
the looked-up monster (none when absent from the room), the attacker's
attack-rate tracker, and the monster's damage ledger. -/
structure DamageState where
  monster : Option Monster
  bucket : List ℚ
  ledger : List (String × ℤ)
deriving DecidableEq

/-- Return value of damageMonster: null (missing, dead or zero validated
damage), rate-limited, or a hit with the kill flag, the prediction
correction, and (on a kill) the loot recipient. -/
inductive DamageOutcome where
  | nullResult
  | rateLimited
  | hit (killed : Bool) (correction : Option (ℚ × ℚ)) (lootRecipient : Option String)
deriving DecidableEq

/-- HP_CORRECTION_THRESHOLD of damageMonster. -/
def HP_CORRECTION_THRESHOLD : ℚ := 50

/-- damageMonster(mapId, monsterId, damage, attackerId, attackDirection, seq,
predictedHp) from server.js, together with the killMonster step it calls on
death, restricted to the modelled state slice. Checks: monster present, not
dead, attack rate limit, validated damage nonzero; then records the damage
in the ledger, applies it, aggros non-static monsters, applies knockback
displacement clamped to the patrol bounds, computes the prediction
correction, broadcasts monsterDamaged (isCritical is the JavaScript test
damage > validatedDamage), and on hp ≤ 0 marks the monster dead, picks the
top damager as loot recipient, broadcasts monsterKilled and clears the
ledger. Drop generation and respawn scheduling act on state outside this
slice; the respawn callback is modelled separately below. -/
def damageMonster (mapId : String) (st : DamageState) (damage : JSVal)
    (attackerId : String) (attackDirection : Option ℤ) (seq : Option ℚ)
    (predictedHp : Option ℚ) (now : ℚ) :
    DamageState × List (Dest × Ev) × DamageOutcome :=
  match st.monster with
  | none => (st, [], .nullResult)
  | some mon =>
    if mon.isDead then (st, [], .nullResult)
    else
      let rl := checkRateLimit now st.bucket MAX_ATTACKS_PER_SECOND
      if !rl.1 then ({ st with bucket := rl.2 }, [], .rateLimited)
      else
        let validatedDamage := validateDamage damage
        if validatedDamage = 0 then ({ st with bucket := rl.2 }, [], .nullResult)
        else
          let ledger1 := ledgerAdd st.ledger attackerId validatedDamage
          let mon1 := { mon with hp := mon.hp - (validatedDamage : ℚ), lastUpdate := now }
          let mon2 :=
            if mon1.aiType ≠ "static" then
              { mon1 with aiState := "chasing"
                          targetPlayer := some attackerId
                          lastInteractionTime := some now }
            else mon1
          let kb :=
            match attackDirection with
            | some ad =>
              if mon2.aiType ≠ "static" then
                let knockbackVelocityX : ℚ := (ad : ℚ) * 6
                let newX := mon2.x + (ad : ℚ) * (6 * 5)
                ({ mon2 with x := max mon2.patrolMinX (min mon2.patrolMaxX newX)
                             knockbackEndTime := some (now + 500) },
                 knockbackVelocityX)
              else (mon2, 0)
            | none => (mon2, 0)
          let mon3 := kb.1
          let correction :=
            match predictedHp, seq with
            | some ph, some s =>
              if s ≠ 0 ∧ HP_CORRECTION_THRESHOLD < |mon3.hp - ph| then
                some (mon3.hp, mon3.maxHp)
              else none
            | _, _ => none
          let dmgEv : Dest × Ev :=
            (Dest.toRoom mapId,
             Ev.monsterDamaged mon.id seq validatedDamage mon3.hp mon3.maxHp
               attackerId kb.2 (jsGtInt damage validatedDamage))
          if mon3.hp ≤ 0 then
            let monK := { mon3 with isDead := true, hp := 0 }
            let lootRecipient := (pickTopDamager ledger1).1
            ({ monster := some monK, bucket := rl.2, ledger := [] },
             [dmgEv, (Dest.toRoom mapId, Ev.monsterKilled mon.id lootRecipient)],
             .hit true none lootRecipient)
          else
            ({ monster := some mon3, bucket := rl.2, ledger := ledger1 },
             [dmgEv], .hit false correction none)

/-- Respawn callback scheduled by killMonster: if mapMonsters[mapId] no
longer exists, do nothing; else remove the corpse entry and, if maps[mapId]
still holds at least one player, spawn a replacement with the remembered
respawn context. Returns the new mapMonsters[mapId] slice and the emitted
events. -/
def respawnCallback (mapId : String)
    (roomMonsters : Option (List (String × Monster)))
    (roomPlayers : Option (List String)) (monsterId monsterType : String)
    (td : MonsterTypeData) (respawnData : SpawnerData)
    (storedMapWidth storedGroundY : Option ℚ) (newId : String)
    (r : SpawnRand) (now : ℚ) :
    Option (List (String × Monster)) × List (Dest × Ev) :=
  match roomMonsters with
  | none => (none, [])
  | some ms =>
    let ms1 := ms.filter (fun p => p.1 != monsterId)
    match roomPlayers with
    | some ps =>
      if 0 < ps.length then
        let sp := spawnMonster mapId monsterType td respawnData
          storedMapWidth storedGroundY newId r now
        (some (ms1 ++ [(sp.1.id, sp.1)]), sp.2)
      else (some ms1, [])
    | none => (some ms1, [])

/-- Ground item record kept in mapGroundItems for pickup validation. -/
structure GroundItem where
  name : String
  x : ℚ
  y : ℚ
  droppedBy : String
  timestamp : ℚ
deriving DecidableEq

/-- State slice touched by the itemPickup handler: the room's ground-item
map (none when mapGroundItems[mapId] does not exist) and the requester's
pickup-rate tracker. -/
structure PickupState where
  groundItems : Option (List (String × GroundItem))
  bucket : List ℚ
deriving DecidableEq

/-- Session context of a connected player inside a handler: currentPlayer's
odId and name, the socket id, and currentMapId. -/
structure SessionCtx where
  odId : String
  name : String
  socketId : String
  mapId : String
deriving DecidableEq

/-- itemPickup handler from server.js: rate-limit pickups; if the item id is
registered in the room's ground-item map, delete it and broadcast
itemPickedUp to the map room, else unicast itemPickupRejected with reason
already_picked_up back to the requester. -/
def itemPickup (ctx : SessionCtx) (st : PickupState) (itemId itemName : String)
    (x y : ℚ) (now : ℚ) : PickupState × List (Dest × Ev) :=
  let rl := checkRateLimit now st.bucket MAX_PICKUPS_PER_SECOND
  if !rl.1 then ({ st with bucket := rl.2 }, [])
  else
    match st.groundItems with
    | some items =>
      if items.any (fun p => p.1 == itemId) then
        ({ groundItems := some (items.filter (fun p => p.1 != itemId)), bucket := rl.2 },
         [(Dest.toRoom ctx.mapId, Ev.itemPickedUp itemId itemName x y ctx.odId ctx.name)])
      else
        ({ st with bucket := rl.2 },
         [(Dest.toSocket ctx.socketId,
           Ev.itemPickupRejected itemId itemName "already_picked_up")])
    | none =>
      ({ st with bucket := rl.2 },
       [(Dest.toSocket ctx.socketId,
         Ev.itemPickupRejected itemId itemName "already_picked_up")])

/-- Player record of maps[mapId], restricted to the fields the party-gold
handlers read. The socket id is the value stored in playerData.socketId. -/
structure RoomPlayer where
  odId : String
  name : String
  socketId : String
  partyId : Option String
deriving DecidableEq

/-- getPartyMembersOnMap(mapId, playerOdId) from server.js: the odIds of the
players of maps[mapId] other than playerOdId sharing playerOdId's partyId,
in key insertion order; empty when the room or the player or its party id is
missing. -/
def getPartyMembersOnMap (room : Option (List (String × RoomPlayer)))
    (playerOdId : String) : List String :=
  match room with
  | none => []
  | some ps =>
    if playerOdId = "" then []
    else
      match (ps.find? (fun p => p.1 == playerOdId)).map Prod.snd with
      | none => []
      | some player =>
        match player.partyId with
        | none => []
        | some pid =>
          (ps.filter (fun p => p.2.odId != playerOdId && p.2.partyId == some pid)).map
            (fun p => p.2.odId)

/-- sharePartyGold handler from server.js. For each party member the code
iterates Object.entries(maps[currentMapId]) destructured as
[socketId, playerData]; the entry keys of maps[mapId] are odIds, so the
io.to(socketId) send is a room send addressed to the room named by the
member's odId. The looter's reply goes out with socket.emit. -/
def sharePartyGold (ctx : SessionCtx) (looterPartyId : Option String)
    (room : Option (List (String × RoomPlayer))) (totalAmount : ℚ) :
    List (Dest × Ev) :=
  if looterPartyId = none then []
  else if totalAmount ≤ 0 then []
  else
    let partyMembers := getPartyMembersOnMap room ctx.odId
    let totalMembers := partyMembers.length + 1
    if totalMembers ≤ 1 then []
    else
      let sharePerMember : ℚ :=
        max 1 ((⌈totalAmount / (totalMembers : ℚ)⌉ : ℤ) : ℚ)
      let looterShare : ℚ :=
        max 1 (totalAmount - sharePerMember * ((totalMembers : ℚ) - 1))
      let memberEvents := partyMembers.flatMap (fun memberOdId =>
        match (room.getD []).find? (fun p => p.2.odId == memberOdId) with
        | some p => [(Dest.toRoom p.1, Ev.partyGoldShare sharePerMember ctx.name)]
        | none => [])
      memberEvents ++
        [(Dest.toSocket ctx.socketId,
          Ev.partyGoldShareResult totalAmount looterShare totalMembers)]

/-- Per-map elite state: the room's monster map and the
currentEliteMonsters[mapId] pointer. -/
structure EliteRoom where
  monsters : List (String × Monster)
  currentElite : Option String
deriving DecidableEq

/-- transformElite handler from server.js: if the monster exists in the
requester's map, set its elite fields from the client payload and broadcast
monsterTransformedElite to the map room. The currentEliteMonsters pointer is
not touched. -/
def transformElite (mapId : String) (room : EliteRoom) (monsterId : String)
    (maxHp damage originalMaxHp originalDamage : ℚ) :
    EliteRoom × List (Dest × Ev) :=
  match room.monsters.find? (fun p => p.1 == monsterId) with
  | some _ =>
    let monsters1 := room.monsters.map (fun p =>
      if p.1 = monsterId then
        (p.1, { p.2 with isEliteMonster := true
                         maxHp := maxHp
                         hp := maxHp
                         damage := some damage
                         originalMaxHp := some originalMaxHp
                         originalDamage := some originalDamage })
      else p)
    ({ room with monsters := monsters1 },
     [(Dest.toRoom mapId,
       Ev.monsterTransformedElite monsterId maxHp maxHp damage
         originalMaxHp originalDamage)])
  | none => (room, [])

/-- ELITE_CONFIG.hpMultiplier from server.js. -/
def ELITE_hpMultiplier : ℚ := 100

/-- ELITE_CONFIG.damageMultiplier from server.js. -/
def ELITE_damageMultiplier : ℚ := 3

/-- ELITE_CONFIG.spawnChance from server.js. -/
def ELITE_spawnChance : ℚ := 3/10

/-- Eligibility filter of attemptServerEliteSpawn. -/
def eliteEligible (m : Monster) : Bool :=
  !m.isDead && !m.isMiniBoss && !m.isTrialBoss && !m.isEliteMonster
    && m.type != "testDummy"

/-- One map's step of attemptServerEliteSpawn from server.js: skip when the
map has no players, is excluded, already has a current elite, or the chance
roll fails; else promote a uniformly picked eligible monster (the pick is
passed as an index reduced modulo the number of eligible monsters), set the
currentEliteMonsters pointer and broadcast monsterTransformedElite. -/
def attemptEliteForMap (mapId : String) (room : EliteRoom)
    (roomPlayers : Option (List String)) (roll : ℚ) (pick : ℕ) :
    EliteRoom × List (Dest × Ev) :=
  match roomPlayers with
  | none => (room, [])
  | some ps =>
    if ps.length = 0 then (room, [])
    else if isExcludedMap mapId then (room, [])
    else if room.currentElite.isSome then (room, [])
    else if ELITE_spawnChance < roll then (room, [])
    else
      let eligible := (room.monsters.map Prod.snd).filter eliteEligible
      match eligible.get? (pick % eligible.length) with
      | none => (room, [])
      | some target =>
        let origDamage := jsOrQ target.damage 10
        let newMaxHp : ℚ := ((⌊target.maxHp * ELITE_hpMultiplier⌋ : ℤ) : ℚ)
        let newDamage : ℚ := ((⌊origDamage * ELITE_damageMultiplier⌋ : ℤ) : ℚ)
        let promoted :=
          { target with isEliteMonster := true
                        originalMaxHp := some target.maxHp
                        originalDamage := some origDamage
                        maxHp := newMaxHp
                        hp := newMaxHp
                        damage := some newDamage }
        let monsters1 := room.monsters.map (fun p =>
          if p.2.id = target.id then (p.1, promoted) else p)
        ({ monsters := monsters1, currentElite := some target.id },
         [(Dest.toRoom mapId,
           Ev.monsterTransformedElite target.id newMaxHp newMaxHp newDamage
             target.maxHp origDamage)])

/-! ## Concrete records used by witnesses and counterexamples -/

/-- A well-formed live monster as spawnMonster produces for an ordinary
patrolling type on a 1366-wide map. -/
def plainMonster : Monster := {
  id := "m_1"
  type := "snail"
  x := 100
  y := 300
  hp := 80
  maxHp := 80
  direction := 1
  facing := "right"
  aiState := "patrolling"
  aiType := "patrolling"
  velocityX := 0
  velocityY := 0
  speed := 4/5
  isDead := false
  isMiniBoss := false
  isEliteMonster := false
  isTrialBoss := false
  isShiny := false
  width := 40
  height := 40
  mapWidth := 1366
  groundY := 300
  spawnTime := 0
  lastUpdate := 0
  spawnX := 100
  spawnY := 300
  patrolSurfaceX := none
  patrolSurfaceWidth := none
  patrolMinX := 0
  patrolMaxX := 250
  originalMaxHp := none
  originalDamage := none
  damage := none
  canJump := false
  jumpForce := -8
  isJumping := false
  aggroRange := 250
  chaseStartTime := 0
  knockbackEndTime := none
  lastInteractionTime := none
  targetPlayer := none }

/-! ## Shared helper lemmas -/

/-- On a chronologically ordered tracker, the front-eviction loop removes
exactly the stamps older than the window. -/
lemma dropWhile_eq_filter_of_sorted (now : ℚ) (l : List ℚ)
    (hl : l.Sorted (· ≤ ·)) :
    l.dropWhile (fun t => decide (RATE_LIMIT_WINDOW < now - t))
      = l.filter (fun t => decide (now - t ≤ RATE_LIMIT_WINDOW)) := by
  induction l with
  | nil => simp
  | cons a l ih =>
    rw [List.sorted_cons] at hl
    obtain ⟨ha, hl'⟩ := hl
    by_cases h : RATE_LIMIT_WINDOW < now - a
    · rw [List.dropWhile_cons_of_pos (by simpa using h),
        List.filter_cons_of_neg (by simpa using not_le.mpr h)]
      exact ih hl'
    · rw [List.dropWhile_cons_of_neg (by simpa using h),
        List.filter_cons_of_pos (by simpa using not_lt.mp h)]
      have : l.filter (fun t => decide (now - t ≤ RATE_LIMIT_WINDOW)) = l := by
        apply List.filter_eq_self.mpr
        intro b hb
        have hab : a ≤ b := ha b hb
        simp only [decide_eq_true_eq]
        have := not_lt.mp h
        linarith
      rw [this]

/-- Removing a key from an association list leaves no entry with that key. -/
lemma filter_ne_key_any_false (items : List (String × GroundItem)) (k : String) :
    ((items.filter (fun p => p.1 != k)).any (fun p => p.1 == k)) = false := by
  simp only [List.any_eq_false, List.mem_filter, bne_iff_ne, beq_iff_eq]
  rintro p ⟨_, hne⟩
  exact hne

/-- Appending one entry to the top-damager fold. -/
lemma pickTopDamager_concat (l : List (String × ℤ)) (p : String × ℤ) :
    pickTopDamager (l ++ [p]) =
      if (pickTopDamager l).2 < p.2 then (some p.1, p.2) else pickTopDamager l := by
  unfold pickTopDamager
  rw [List.foldl_append]
  rfl

/-- Reading inside the left part of an append. -/
lemma get_append_left_aux {α : Type} (l : List α) (p : α) (i : ℕ)
    (h : i < l.length) (h2 : i < (l ++ [p]).length) :
    (l ++ [p]).get ⟨i, h2⟩ = l.get ⟨i, h⟩ := by
  rw [List.get_eq_getElem, List.get_eq_getElem]
  exact List.getElem_append_left h

/-- Reading the appended last element. -/
lemma get_append_last_aux {α : Type} (l : List α) (p : α) (i : ℕ)
    (h1 : i = l.length) (h2 : i < (l ++ [p]).length) :
    (l ++ [p]).get ⟨i, h2⟩ = p := by
  rw [List.get_eq_getElem]
  exact List.getElem_concat_length l p _ h1 h2

/-- The top-damager fold over a ledger of positive damages returns the first
entry holding the maximal damage. -/
lemma pickTopDamager_argmax (l : List (String × ℤ))
    (hpos : ∀ p ∈ l, 0 < p.2) (hne : l ≠ []) :
    ∃ i : Fin l.length,
      pickTopDamager l = (some (l.get i).1, (l.get i).2)
      ∧ (∀ j : Fin l.length, (l.get j).2 ≤ (l.get i).2)
      ∧ (∀ j : Fin l.length, j.1 < i.1 → (l.get j).2 < (l.get i).2) := by
  induction l using List.reverseRecOn with
  | nil => exact absurd rfl hne
  | append_singleton l p ih =>
    have hlen : (l ++ [p]).length = l.length + 1 := by simp
    by_cases hl : l = []
    · subst hl
      have hp : 0 < p.2 := hpos p (by simp)
      refine ⟨⟨0, by simp⟩, ?_, ?_, ?_⟩
      · rw [pickTopDamager_concat]
        simp [pickTopDamager, hp]
      · intro j
        have hj : j = ⟨0, by simp⟩ := by
          apply Fin.ext
          have := j.2
          simp at this
          simp [this]
        rw [hj]
      · intro j hj
        exact absurd hj (Nat.not_lt_zero _)
    · obtain ⟨i, heq, hmax, hfirst⟩ :=
        ih (fun q hq => hpos q (by simp [hq])) hl
      have hilen : i.1 < l.length := i.2
      rw [pickTopDamager_concat]
      by_cases hcmp : (pickTopDamager l).2 < p.2
      · have hplen : l.length < (l ++ [p]).length := by omega
        have hpget : (l ++ [p]).get ⟨l.length, hplen⟩ = p :=
          get_append_last_aux l p l.length rfl hplen
        refine ⟨⟨l.length, hplen⟩, ?_, ?_, ?_⟩
        · rw [if_pos hcmp, hpget]
        · intro j
          rw [hpget]
          rcases Nat.lt_or_ge j.1 l.length with hj | hj
          · have hjget : (l ++ [p]).get j = l.get ⟨j.1, hj⟩ :=
              get_append_left_aux l p j.1 hj j.2
            have hmx : (l.get ⟨j.1, hj⟩).2 ≤ (l.get i).2 := hmax ⟨j.1, hj⟩
            have hpv : (l.get i).2 = (pickTopDamager l).2 := by rw [heq]
            rw [hjget]
            omega
          · have hj1 : j.1 = l.length := by
              have := j.2
              omega
            have hjget : (l ++ [p]).get j = p :=
              get_append_last_aux l p j.1 hj1 j.2
            rw [hjget]
        · intro j hj
          rw [hpget]
          have hjlt : j.1 < l.length := hj
          have hjget : (l ++ [p]).get j = l.get ⟨j.1, hjlt⟩ :=
            get_append_left_aux l p j.1 hjlt j.2
          have hmx : (l.get ⟨j.1, hjlt⟩).2 ≤ (l.get i).2 := hmax ⟨j.1, hjlt⟩
          have hpv : (l.get i).2 = (pickTopDamager l).2 := by rw [heq]
          rw [hjget]
          omega
      · have hilen2 : i.1 < (l ++ [p]).length := by omega
        have higet : (l ++ [p]).get ⟨i.1, hilen2⟩ = l.get i :=
          get_append_left_aux l p i.1 hilen hilen2
        refine ⟨⟨i.1, hilen2⟩, ?_, ?_, ?_⟩
        · rw [if_neg hcmp, higet]
          exact heq
        · intro j
          rw [higet]
          rcases Nat.lt_or_ge j.1 l.length with hj | hj
          · have hjget : (l ++ [p]).get j = l.get ⟨j.1, hj⟩ :=
              get_append_left_aux l p j.1 hj j.2
            rw [hjget]
            exact hmax ⟨j.1, hj⟩
          · have hj1 : j.1 = l.length := by
              have := j.2
              omega
            have hjget : (l ++ [p]).get j = p :=
              get_append_last_aux l p j.1 hj1 j.2
            rw [hjget]
            have hpv : (l.get i).2 = (pickTopDamager l).2 := by rw [heq]
            omega
        · intro j hj
          have hjlt : j.1 < l.length := by
            have : j.1 < i.1 := hj
            omega
          have hjget : (l ++ [p]).get j = l.get ⟨j.1, hjlt⟩ :=
            get_append_left_aux l p j.1 hjlt j.2
          rw [higet, hjget]
          exact hfirst ⟨j.1, hjlt⟩ hj

/-! ## Claim C2 -/

/-- C2: when killMonster fires, lootRecipient is the arg-max over the damage
ledger of the monster: the fold over Object.entries starting from (null, 0)
with strict-greater replacement yields, on an empty ledger, no recipient,
and on a nonempty ledger of positive cumulative damages the first entry (in
insertion order) attaining the maximum — so ties go to the first contributor
to reach the maximum. The second and third conjuncts discharge the
positivity hypothesis: validated damage is never negative, and the ledger
update of damageMonster keeps all cumulative damages positive. -/
theorem killMonster_lootRecipient_argmax :
    pickTopDamager [] = (none, 0)
    ∧ (∀ v : JSVal, 0 ≤ validateDamage v)
    ∧ (∀ (ledger : List (String × ℤ)) (who : String) (d : ℤ),
        (∀ p ∈ ledger, 0 < p.2) → 0 < d → ∀ p ∈ ledgerAdd ledger who d, 0 < p.2)
    ∧ ∀ (ledger : List (String × ℤ)), (∀ p ∈ ledger, 0 < p.2) → ledger ≠ [] →
      ∃ i : Fin ledger.length,
        pickTopDamager ledger = (some (ledger.get i).1, (ledger.get i).2)
        ∧ (∀ j : Fin ledger.length, (ledger.get j).2 ≤ (ledger.get i).2)
        ∧ (∀ j : Fin ledger.length, j.1 < i.1 →
            (ledger.get j).2 < (ledger.get i).2) := by
  refine ⟨rfl, ?_, ?_, pickTopDamager_argmax⟩
  · intro v
    match v with
    | .notNum => simp [validateDamage]
    | .num .nan => simp [validateDamage, jsIsNaN]
    | .num .posInf => simp [validateDamage, jsIsNaN, jsLt, jsGt, MAX_DAMAGE_PER_HIT]
    | .num .negInf => simp [validateDamage, jsIsNaN, jsLt]
    | .num (.fin q) =>
      simp only [validateDamage, jsIsNaN, jsLt, jsGt, jsFloor, Bool.false_or]
      by_cases h0 : q < 0
      · simp [h0]
      · rw [if_neg (by simpa using h0)]
        split
        · norm_num [MAX_DAMAGE_PER_HIT]
        · exact Int.floor_nonneg.mpr (not_lt.mp h0)
  · intro ledger who d hpos hd p hp
    unfold ledgerAdd at hp
    by_cases hany : ledger.any (fun p => p.1 == who) = true
    · rw [if_pos hany] at hp
      obtain ⟨q, hq, hfq⟩ := List.mem_map.mp hp
      by_cases hqw : q.1 = who
      · rw [if_pos hqw] at hfq
        have := hpos q hq
        rw [← hfq]
        simpa using by omega
      · rw [if_neg hqw] at hfq
        rw [← hfq]
        exact hpos q hq
    · rw [if_neg hany] at hp
      rcases List.mem_append.mp hp with h | h
      · exact hpos p h
      · simp at h
        rw [h]
        exact hd

/-- C2 witness: on the ledger [(a,5), (b,3)] the theorem pins the recipient
to the first and maximal entry a with 5 damage. -/
theorem killMonster_lootRecipient_argmax_witness :
    pickTopDamager [("a", 5), ("b", 3)] = (some "a", 5) := by
  obtain ⟨i, h1, h2, h3⟩ :=
    killMonster_lootRecipient_argmax.2.2.2 [("a", 5), ("b", 3)]
      (by decide) (by decide)
  fin_cases i
  · simpa using h1
  · exfalso
    have hle := h2 ⟨0, by norm_num⟩
    norm_num at hle

/-! ## Claim C4 -/

/-- A damage payload that is a finite non-negative number. -/
def IsFiniteNonnegNum (v : JSVal) : Prop := ∃ q : ℚ, 0 ≤ q ∧ v = .num (.fin q)

/-- C4 counterexample: positive infinity is a number that is not finite and
non-negative, yet validateDamage maps it to 50000, not to 0 as the claim
states — isNaN(Infinity) is false and Infinity < 0 is false, so the code
falls through to the cap branch. -/
theorem validateDamage_infinite_cex :
    ¬ IsFiniteNonnegNum (JSVal.num JSNum.posInf)
    ∧ validateDamage (JSVal.num JSNum.posInf) = 50000 := by
  constructor
  · rintro ⟨q, _, h⟩
    simp at h
  · decide

/-- C4 amended: validateDamage returns the floor of min(d, 50000) for every
finite non-negative d, returns 50000 (the capped maximum) for positive
infinity, and returns 0 for a non-number, NaN, negative infinity or a
negative number. -/
theorem validateDamage_characterization :
    (∀ q : ℚ, 0 ≤ q → validateDamage (.num (.fin q)) = ⌊min q (50000 : ℚ)⌋)
    ∧ validateDamage (.num .posInf) = MAX_DAMAGE_PER_HIT
    ∧ validateDamage .notNum = 0
    ∧ validateDamage (.num .nan) = 0
    ∧ validateDamage (.num .negInf) = 0
    ∧ (∀ q : ℚ, q < 0 → validateDamage (.num (.fin q)) = 0) := by
  refine ⟨?_, by decide, by decide, by decide, by decide, ?_⟩
  · intro q hq
    simp only [validateDamage, jsIsNaN, jsLt, jsGt, jsFloor, Bool.false_or]
    rw [if_neg (by simpa using not_lt.mpr hq)]
    by_cases h1 : (MAX_DAMAGE_PER_HIT : ℚ) < q
    · rw [if_pos (by simpa using h1)]
      have hm : min q (50000 : ℚ) = 50000 := by
        apply min_eq_right
        have : ((MAX_DAMAGE_PER_HIT : ℤ) : ℚ) = 50000 := by
          norm_num [MAX_DAMAGE_PER_HIT]
        rw [this] at h1
        linarith
      rw [hm]
      norm_num [MAX_DAMAGE_PER_HIT]
    · rw [if_neg (by simpa using h1)]
      have hm : min q (50000 : ℚ) = q := by
        apply min_eq_left
        have : ((MAX_DAMAGE_PER_HIT : ℤ) : ℚ) = 50000 := by
          norm_num [MAX_DAMAGE_PER_HIT]
        rw [this] at h1
        linarith
      rw [hm]
  · intro q hq
    simp [validateDamage, jsIsNaN, jsLt, hq]

/-- C4 witness: the amended theorem evaluated at the finite damage 3. -/
theorem validateDamage_characterization_witness :
    validateDamage (.num (.fin 3)) = ⌊min (3 : ℚ) (50000 : ℚ)⌋ :=
  validateDamage_characterization.1 3 (by norm_num)

/-! ## Claim C9 -/

/-- C9: an attack on a monster whose isDead flag is set returns before the
rate-limit check, the ledger update, the damage application and the
broadcast: the state slice is returned unchanged and no event is emitted. -/
theorem damageMonster_dead_noop (mapId : String) (st : DamageState)
    (damage : JSVal) (attackerId : String) (ad : Option ℤ) (seq ph : Option ℚ)
    (now : ℚ) (mon : Monster) (hmon : st.monster = some mon)
    (hdead : mon.isDead = true) :
    damageMonster mapId st damage attackerId ad seq ph now
      = (st, [], .nullResult) := by
  unfold damageMonster
  rw [hmon]
  simp [hdead]

/-- C9 witness: the theorem evaluated on a concrete corpse. -/
theorem damageMonster_dead_noop_witness :
    damageMonster "henesys"
      ⟨some { plainMonster with isDead := true }, [], []⟩
      (.num (.fin 10)) "A" none none none 0
    = (⟨some { plainMonster with isDead := true }, [], []⟩, [], .nullResult) :=
  damageMonster_dead_noop "henesys"
    ⟨some { plainMonster with isDead := true }, [], []⟩
    (.num (.fin 10)) "A" none none none 0
    { plainMonster with isDead := true } rfl rfl

/-! ## Claim C7 -/

/-- C7: the respawn callback first checks that mapMonsters[mapId] still
exists; when the room was destroyed it changes nothing and emits nothing;
an event (the monsterSpawned broadcast of the replacement) is ever emitted
only when the room still exists and maps[mapId] still holds at least one
player, in which case the corpse entry is removed and spawnMonster runs with
the remembered context. -/
theorem respawnCallback_room_guard :
    (∀ mapId roomPlayers monsterId monsterType td rd smw sgy newId r now,
      respawnCallback mapId none roomPlayers monsterId monsterType td rd
        smw sgy newId r now = (none, []))
    ∧ (∀ mapId roomMonsters roomPlayers monsterId monsterType td rd smw sgy
        newId r now,
        (respawnCallback mapId roomMonsters roomPlayers monsterId monsterType
          td rd smw sgy newId r now).2 ≠ [] →
        (∃ ms, roomMonsters = some ms)
        ∧ ∃ ps, roomPlayers = some ps ∧ 0 < ps.length)
    ∧ (∀ mapId ms ps monsterId monsterType td rd smw sgy newId r now,
        0 < ps.length →
        respawnCallback mapId (some ms) (some ps) monsterId monsterType td rd
          smw sgy newId r now
        = (some ((ms.filter (fun p => p.1 != monsterId)) ++
            [((spawnMonster mapId monsterType td rd smw sgy newId r now).1.id,
              (spawnMonster mapId monsterType td rd smw sgy newId r now).1)]),
           (spawnMonster mapId monsterType td rd smw sgy newId r now).2)) := by
  refine ⟨?_, ?_, ?_⟩
  · intro mapId roomPlayers monsterId monsterType td rd smw sgy newId r now
    rfl
  · intro mapId roomMonsters roomPlayers monsterId monsterType td rd smw sgy
      newId r now hne
    cases roomMonsters with
    | none => exact absurd rfl hne
    | some ms =>
      cases roomPlayers with
      | none => exact absurd rfl hne
      | some ps =>
        refine ⟨⟨ms, rfl⟩, ps, rfl, ?_⟩
        by_cases hlen : 0 < ps.length
        · exact hlen
        · exfalso
          apply hne
          show (respawnCallback mapId (some ms) (some ps) monsterId monsterType
            td rd smw sgy newId r now).2 = []
          simp [respawnCallback, hlen]
  · intro mapId ms ps monsterId monsterType td rd smw sgy newId r now hlen
    dsimp only [respawnCallback]
    rw [if_pos hlen]

/-! ## Claim C5 -/

/-- C5: the per-action admission check evicts the stamps older than
now − 1s (on the chronologically ordered trackers the front-eviction loop
equals the filter), admits exactly when the remaining count is strictly
below the cap, appends the current stamp exactly on admission, and a
rejected action appends nothing; the damage and pickup handlers perform no
further state change on a rejected action; the caps are attacks 10/s,
pickups 20/s, position updates 30/s. -/
theorem checkRateLimit_admission :
    MAX_ATTACKS_PER_SECOND = 10 ∧ MAX_PICKUPS_PER_SECOND = 20
    ∧ MAX_POSITION_UPDATES_PER_SECOND = 30
    ∧ (∀ (now : ℚ) (bucket : List ℚ), bucket.Sorted (· ≤ ·) →
        evictOld now bucket
          = bucket.filter (fun t => decide (now - t ≤ RATE_LIMIT_WINDOW)))
    ∧ (∀ (now : ℚ) (bucket : List ℚ) (limit : ℕ),
        ((checkRateLimit now bucket limit).1 = true
          ↔ (evictOld now bucket).length < limit)
        ∧ ((checkRateLimit now bucket limit).1 = true →
            (checkRateLimit now bucket limit).2 = evictOld now bucket ++ [now])
        ∧ ((checkRateLimit now bucket limit).1 = false →
            (checkRateLimit now bucket limit).2 = evictOld now bucket))
    ∧ (∀ mapId st damage attackerId ad seq ph (now : ℚ) mon,
        st.monster = some mon → mon.isDead = false →
        (checkRateLimit now st.bucket MAX_ATTACKS_PER_SECOND).1 = false →
        damageMonster mapId st damage attackerId ad seq ph now
          = ({ st with
                bucket := (checkRateLimit now st.bucket MAX_ATTACKS_PER_SECOND).2 },
             [], .rateLimited))
    ∧ (∀ ctx st itemId itemName (x y now : ℚ),
        (checkRateLimit now st.bucket MAX_PICKUPS_PER_SECOND).1 = false →
        itemPickup ctx st itemId itemName x y now
          = ({ st with
                bucket := (checkRateLimit now st.bucket MAX_PICKUPS_PER_SECOND).2 },
             [])) := by
  refine ⟨rfl, rfl, rfl, dropWhile_eq_filter_of_sorted, ?_, ?_, ?_⟩
  · intro now bucket limit
    by_cases h : limit ≤ (evictOld now bucket).length
    · refine ⟨?_, ?_, ?_⟩ <;> simp [checkRateLimit, h, not_lt.mpr h]
    · refine ⟨?_, ?_, ?_⟩ <;> simp [checkRateLimit, h, not_le.mp h]
  · intro mapId st damage attackerId ad seq ph now mon hmon hlive hrl
    unfold damageMonster
    rw [hmon]
    simp [hlive, hrl]
  · intro ctx st itemId itemName x y now hrl
    unfold itemPickup
    simp [hrl]

/-- C5 witness: on a sorted tracker the eviction drops exactly the stamps
older than one second before the call. -/
theorem checkRateLimit_admission_witness :
    evictOld 2000 [500, 1500]
      = [500, 1500].filter (fun t => decide ((2000 : ℚ) - t ≤ RATE_LIMIT_WINDOW)) :=
  checkRateLimit_admission.2.2.2.1 2000 [500, 1500]
    (by simp [List.sorted_cons]; norm_num)

/-! ## Claim C1 -/

/-- C1: a pickup of an id registered in the room's ground-item map (when
admitted by the pickup rate limit) deletes the id and broadcasts exactly one
itemPickedUp to the map room; a pickup of an unregistered id (from anyone)
leaves every room's ground-item map unchanged and unicasts exactly one
itemPickupRejected with reason already_picked_up to the requester's socket;
hence processing the same pickup twice emits exactly one broadcast and one
rejection, and the id stays consumed. The final two conjuncts are the
delivery facts: a room send reaches exactly the sockets subscribed to the
room, a socket send exactly the requester's socket. -/
theorem itemPickup_first_come_wins :
    (∀ ctx st itemId itemName (x y now : ℚ) items,
      st.groundItems = some items →
      items.any (fun p => p.1 == itemId) = true →
      (checkRateLimit now st.bucket MAX_PICKUPS_PER_SECOND).1 = true →
      (itemPickup ctx st itemId itemName x y now).2
        = [(Dest.toRoom ctx.mapId,
            Ev.itemPickedUp itemId itemName x y ctx.odId ctx.name)]
      ∧ (itemPickup ctx st itemId itemName x y now).1.groundItems
        = some (items.filter (fun p => p.1 != itemId))
      ∧ (((itemPickup ctx st itemId itemName x y now).1.groundItems.getD []).any
          (fun p => p.1 == itemId)) = false)
    ∧ (∀ ctx st itemId itemName (x y now : ℚ),
      ((st.groundItems.getD []).any (fun p => p.1 == itemId)) = false →
      (checkRateLimit now st.bucket MAX_PICKUPS_PER_SECOND).1 = true →
      (itemPickup ctx st itemId itemName x y now).1.groundItems = st.groundItems
      ∧ (itemPickup ctx st itemId itemName x y now).2
        = [(Dest.toSocket ctx.socketId,
            Ev.itemPickupRejected itemId itemName "already_picked_up")])
    ∧ (∀ ctx1 ctx2 st itemId n1 n2 (x1 y1 x2 y2 t1 t2 : ℚ) items,
      st.groundItems = some items →
      items.any (fun p => p.1 == itemId) = true →
      (checkRateLimit t1 st.bucket MAX_PICKUPS_PER_SECOND).1 = true →
      (checkRateLimit t2 (itemPickup ctx1 st itemId n1 x1 y1 t1).1.bucket
        MAX_PICKUPS_PER_SECOND).1 = true →
      (itemPickup ctx1 st itemId n1 x1 y1 t1).2
        = [(Dest.toRoom ctx1.mapId,
            Ev.itemPickedUp itemId n1 x1 y1 ctx1.odId ctx1.name)]
      ∧ (itemPickup ctx2 (itemPickup ctx1 st itemId n1 x1 y1 t1).1
          itemId n2 x2 y2 t2).2
        = [(Dest.toSocket ctx2.socketId,
            Ev.itemPickupRejected itemId n2 "already_picked_up")]
      ∧ (itemPickup ctx2 (itemPickup ctx1 st itemId n1 x1 y1 t1).1
          itemId n2 x2 y2 t2).1.groundItems
        = (itemPickup ctx1 st itemId n1 x1 y1 t1).1.groundItems)
    ∧ (∀ (c : Client) (m : String) (e : Ev),
        receives c (Dest.toRoom m, e) = true ↔ m ∈ c.joined)
    ∧ (∀ (c : Client) (s : String) (e : Ev),
        receives c (Dest.toSocket s, e) = true ↔ c.sid = s) := by
  have hpresent : ∀ ctx st itemId itemName (x y now : ℚ) items,
      st.groundItems = some items →
      items.any (fun p => p.1 == itemId) = true →
      (checkRateLimit now st.bucket MAX_PICKUPS_PER_SECOND).1 = true →
      (itemPickup ctx st itemId itemName x y now).2
        = [(Dest.toRoom ctx.mapId,
            Ev.itemPickedUp itemId itemName x y ctx.odId ctx.name)]
      ∧ (itemPickup ctx st itemId itemName x y now).1.groundItems
        = some (items.filter (fun p => p.1 != itemId))
      ∧ (((itemPickup ctx st itemId itemName x y now).1.groundItems.getD []).any
          (fun p => p.1 == itemId)) = false := by
    intro ctx st itemId itemName x y now items hgi hany hallow
    unfold itemPickup
    rw [hgi]
    refine ⟨?_, ?_, ?_⟩ <;>
      simp [hallow, hany, filter_ne_key_any_false]
  have habsent : ∀ ctx st itemId itemName (x y now : ℚ),
      ((st.groundItems.getD []).any (fun p => p.1 == itemId)) = false →
      (checkRateLimit now st.bucket MAX_PICKUPS_PER_SECOND).1 = true →
      (itemPickup ctx st itemId itemName x y now).1.groundItems = st.groundItems
      ∧ (itemPickup ctx st itemId itemName x y now).2
        = [(Dest.toSocket ctx.socketId,
            Ev.itemPickupRejected itemId itemName "already_picked_up")] := by
    intro ctx st itemId itemName x y now habs hallow
    unfold itemPickup
    cases hgi : st.groundItems with
    | none => refine ⟨?_, ?_⟩ <;> simp [hallow]
    | some items =>
      rw [hgi] at habs
      simp only [Option.getD_some] at habs
      refine ⟨?_, ?_⟩ <;> simp [hallow, habs]
  refine ⟨hpresent, habsent, ?_, ?_, ?_⟩
  · intro ctx1 ctx2 st itemId n1 n2 x1 y1 x2 y2 t1 t2 items hgi hany h1 h2
    obtain ⟨hev1, hgi1, hnone⟩ :=
      hpresent ctx1 st itemId n1 x1 y1 t1 items hgi hany h1
    obtain ⟨hgi2, hev2⟩ :=
      habsent ctx2 (itemPickup ctx1 st itemId n1 x1 y1 t1).1 itemId n2 x2 y2 t2
        hnone h2
    exact ⟨hev1, hev2, hgi2⟩
  · intro c m e
    simp [receives]
  · intro c s e
    simp [receives]

/-- C1 witness: a concrete double pickup of the same drop id. -/
theorem itemPickup_first_come_wins_witness :
    (itemPickup ⟨"A", "Alice", "sA", "henesys"⟩
      ⟨some [("drop_1_0_x", ⟨"Gold", 10, 20, "__monster__", 0⟩)], []⟩
      "drop_1_0_x" "Gold" 10 20 0).2
      = [(Dest.toRoom "henesys", Ev.itemPickedUp "drop_1_0_x" "Gold" 10 20 "A" "Alice")]
    ∧ (itemPickup ⟨"B", "Bob", "sB", "henesys"⟩
        (itemPickup ⟨"A", "Alice", "sA", "henesys"⟩
          ⟨some [("drop_1_0_x", ⟨"Gold", 10, 20, "__monster__", 0⟩)], []⟩
          "drop_1_0_x" "Gold" 10 20 0).1
        "drop_1_0_x" "Gold" 10 20 1).2
      = [(Dest.toSocket "sB", Ev.itemPickupRejected "drop_1_0_x" "Gold" "already_picked_up")]
    ∧ (itemPickup ⟨"B", "Bob", "sB", "henesys"⟩
        (itemPickup ⟨"A", "Alice", "sA", "henesys"⟩
          ⟨some [("drop_1_0_x", ⟨"Gold", 10, 20, "__monster__", 0⟩)], []⟩
          "drop_1_0_x" "Gold" 10 20 0).1
        "drop_1_0_x" "Gold" 10 20 1).1.groundItems
      = (itemPickup ⟨"A", "Alice", "sA", "henesys"⟩
          ⟨some [("drop_1_0_x", ⟨"Gold", 10, 20, "__monster__", 0⟩)], []⟩
          "drop_1_0_x" "Gold" 10 20 0).1.groundItems := by
  have h := itemPickup_first_come_wins.2.2.1
    ⟨"A", "Alice", "sA", "henesys"⟩ ⟨"B", "Bob", "sB", "henesys"⟩
    ⟨some [("drop_1_0_x", ⟨"Gold", 10, 20, "__monster__", 0⟩)], []⟩
    "drop_1_0_x" "Gold" "Gold" 10 20 10 20 0 1
    [("drop_1_0_x", ⟨"Gold", 10, 20, "__monster__", 0⟩)]
    rfl (by decide) (by decide)
    (by norm_num [itemPickup, checkRateLimit, evictOld, List.dropWhile,
      MAX_PICKUPS_PER_SECOND, RATE_LIMIT_WINDOW])
  exact h

/-- C7 witness: a destroyed room makes a concrete respawn callback a no-op. -/
theorem respawnCallback_room_guard_witness :
    respawnCallback "henesys" none (some ["p1"]) "m_1" "snail"
      ⟨none, none, none, none, none, none, none, none⟩
      ⟨none, some 300, some 80, some 260, some 1366, some 300, some 80⟩
      none none "m_2" ⟨0, 0, 1⟩ 8000 = (none, []) :=
  respawnCallback_room_guard.1 "henesys" (some ["p1"]) "m_1" "snail"
    ⟨none, none, none, none, none, none, none, none⟩
    ⟨none, some 300, some 80, some 260, some 1366, some 300, some 80⟩
    none none "m_2" ⟨0, 0, 1⟩ 8000

/-! ## Claim C10 -/

/-- Helper: the transformElite handler never writes the
currentEliteMonsters pointer. -/
lemma transformElite_currentElite_eq (mapId : String) (room : EliteRoom)
    (monsterId : String) (mh dmg omh odm : ℚ) :
    ((transformElite mapId room monsterId mh dmg omh odm).1).currentElite
      = room.currentElite := by
  cases hfind : room.monsters.find? (fun p => p.1 == monsterId) <;>
    simp [transformElite, hfind]

/-- C10: the client-initiated transformElite handler rewrites exactly the
targeted monster entry (isEliteMonster, maxHp, hp, damage, originalMaxHp,
originalDamage) and broadcasts monsterTransformedElite, leaving the per-map
current-elite pointer untouched; and because the periodic promoter skips a
map only on a set pointer (or no players, excluded prefix, failed roll, no
eligible monster), it can still promote a monster on the same map
afterwards. -/
theorem transformElite_keeps_promoter_open :
    (∀ mapId room monsterId (mh dmg omh odm : ℚ),
      ((transformElite mapId room monsterId mh dmg omh odm).1).currentElite
        = room.currentElite)
    ∧ (∀ mapId room monsterId (mh dmg omh odm : ℚ) mon,
        room.monsters.find? (fun p => p.1 == monsterId) = some mon →
        (transformElite mapId room monsterId mh dmg omh odm).2
          = [(Dest.toRoom mapId,
              Ev.monsterTransformedElite monsterId mh mh dmg omh odm)]
        ∧ ((transformElite mapId room monsterId mh dmg omh odm).1).monsters
          = room.monsters.map (fun p =>
              if p.1 = monsterId then
                (p.1, { p.2 with
                          isEliteMonster := true
                          maxHp := mh
                          hp := mh
                          damage := some dmg
                          originalMaxHp := some omh
                          originalDamage := some odm })
              else p))
    ∧ (∀ mapId room monsterId (mh dmg omh odm : ℚ) ps (roll : ℚ) (pick : ℕ),
        room.currentElite = none → isExcludedMap mapId = false →
        ps ≠ [] → roll ≤ ELITE_spawnChance →
        ((((transformElite mapId room monsterId mh dmg omh odm).1).monsters.map
            Prod.snd).filter eliteEligible) ≠ [] →
        (∃ tid, ((attemptEliteForMap mapId
            (transformElite mapId room monsterId mh dmg omh odm).1
            (some ps) roll pick).1).currentElite = some tid)
        ∧ (attemptEliteForMap mapId
            (transformElite mapId room monsterId mh dmg omh odm).1
            (some ps) roll pick).2 ≠ []) := by
  refine ⟨transformElite_currentElite_eq, ?_, ?_⟩
  · intro mapId room monsterId mh dmg omh odm mon hfind
    refine ⟨?_, ?_⟩ <;> simp [transformElite, hfind]
  · intro mapId room monsterId mh dmg omh odm ps roll pick hnone hexcl hps
      hroll helig
    unfold attemptEliteForMap
    dsimp only
    have hlen : ¬ ps.length = 0 := by
      simpa [List.length_eq_zero] using hps
    have hpt : ((transformElite mapId room monsterId mh dmg omh odm).1).currentElite
        = none := by
      rw [transformElite_currentElite_eq]
      exact hnone
    have hlt : pick % ((((transformElite mapId room monsterId mh dmg omh
          odm).1).monsters.map Prod.snd).filter eliteEligible).length
        < ((((transformElite mapId room monsterId mh dmg omh odm).1).monsters.map
            Prod.snd).filter eliteEligible).length :=
      Nat.mod_lt _ (List.length_pos.mpr helig)
    rw [if_neg hlen, if_neg (by simp [hexcl]), if_neg (by simp [hpt]),
      if_neg (not_lt.mpr hroll), List.get?_eq_get hlt]
    exact ⟨⟨_, rfl⟩, by simp⟩

/-- C10 witness: after a client transformElite on one monster, the promoter
still promotes the other monster of the same concrete map. -/
theorem transformElite_keeps_promoter_open_witness :
    ((attemptEliteForMap "henesys"
        (transformElite "henesys"
          ⟨[("m_1", plainMonster), ("m_2", { plainMonster with id := "m_2" })], none⟩
          "m_1" 8000 30 80 10).1
        (some ["p"]) 0 0).1).currentElite.isSome = true := by
  obtain ⟨⟨tid, htid⟩, -⟩ := transformElite_keeps_promoter_open.2.2
    "henesys" ⟨[("m_1", plainMonster), ("m_2", { plainMonster with id := "m_2" })], none⟩
    "m_1" 8000 30 80 10 ["p"] 0 0
    rfl (by decide) (by decide) (by norm_num [ELITE_spawnChance]) (by decide)
  simp [htid]

/-! ## Claim C3 -/

/-- C3: evaluating the attack pipeline at an asserted damage of 50001
against a live 100000-hp monster. The applied damage is clamped to 50000
(matching the claim), but the broadcast's isCritical field is the
JavaScript expression damage > validatedDamage, which is true exactly when
the damage was capped — the code's own comment ("If damage was capped,
wasn't a crit") and the spec say it must be false, and the client's
isCritical assertion is never consulted (the handler destructures it and
drops it). -/
theorem monsterDamaged_isCritical_capped_eval :
    (damageMonster "henesys"
      ⟨some { plainMonster with hp := 100000, maxHp := 100000 }, [], []⟩
      (.num (.fin 50001)) "A" none none none 0).2.1
      = [(Dest.toRoom "henesys",
          Ev.monsterDamaged "m_1" none 50000 50000 100000 "A" 0 true)]
    ∧ validateDamage (.num (.fin 50001)) = 50000
    ∧ (((damageMonster "henesys"
        ⟨some { plainMonster with hp := 100000, maxHp := 100000 }, [], []⟩
        (.num (.fin 50001)) "A" none none none 0).1.monster.getD
          plainMonster).hp = 50000) := by
  have hv : validateDamage (.num (.fin 50001)) = 50000 := by decide
  refine ⟨?_, hv, ?_⟩ <;>
    (norm_num [damageMonster, checkRateLimit, evictOld, hv, ledgerAdd,
      jsGtInt, jsGt, MAX_ATTACKS_PER_SECOND, MAX_DAMAGE_PER_HIT, plainMonster]) <;>
    decide

/-! ## Claim C8 -/

/-- Concrete party-gold scenario: looter L (socket s1) with party members
P1 (socket s2) and P2 (socket s3), all of party q, on map m. -/
def goldRoom : List (String × RoomPlayer) :=
  [("L", ⟨"L", "Looter", "s1", some "q"⟩),
   ("P1", ⟨"P1", "PeerOne", "s2", some "q"⟩),
   ("P2", ⟨"P2", "PeerTwo", "s3", some "q"⟩)]

/-- Events emitted by sharePartyGold(100) in the concrete scenario. -/
def goldShareEvents : List (Dest × Ev) :=
  sharePartyGold ⟨"L", "Looter", "s1", "m"⟩ (some "q") (some goldRoom) 100

/-- C8: evaluating sharePartyGold(100) with two party members on the map.
The computed amounts match the claim (share 34 to each member, 32 and
memberCount 3 back to the looter), but the member sends are addressed to
io.to(odId) — the Object.entries key of maps[mapId] is the odId, though the
code destructures it as socketId — a socket.io room that no socket joined
(each member's socket is only in its own socket-id room and the map room).
So neither member's socket receives any partyGoldShare; only the looter's
socket.emit reply arrives. -/
theorem sharePartyGold_misaddressed_eval :
    goldShareEvents
      = [(Dest.toRoom "P1", Ev.partyGoldShare 34 "Looter"),
         (Dest.toRoom "P2", Ev.partyGoldShare 34 "Looter"),
         (Dest.toSocket "s1", Ev.partyGoldShareResult 100 32 3)]
    ∧ goldShareEvents.filter (fun e => receives (clientOfPlayer "s2" "m") e) = []
    ∧ goldShareEvents.filter (fun e => receives (clientOfPlayer "s3" "m") e) = []
    ∧ goldShareEvents.filter (fun e => receives (clientOfPlayer "s1" "m") e)
      = [(Dest.toSocket "s1", Ev.partyGoldShareResult 100 32 3)] := by
  have hev : goldShareEvents
      = [(Dest.toRoom "P1", Ev.partyGoldShare 34 "Looter"),
         (Dest.toRoom "P2", Ev.partyGoldShare 34 "Looter"),
         (Dest.toSocket "s1", Ev.partyGoldShareResult 100 32 3)] := by
    have hm : getPartyMembersOnMap (some goldRoom) "L" = ["P1", "P2"] := by decide
    have hc : (⌈(100 : ℚ) / 3⌉ : ℤ) = 34 := by norm_num [Int.ceil_eq_iff]
    unfold goldShareEvents sharePartyGold
    rw [show (⟨"L", "Looter", "s1", "m"⟩ : SessionCtx).odId = "L" from rfl]
    rw [hm]
    norm_num [goldRoom, List.find?, List.flatMap, hc]
    decide
  refine ⟨hev, ?_, ?_, ?_⟩ <;> rw [hev] <;> decide

/-! ## Claim C6 -/

/-- De-aggro re-centering keeps the patrol bounds ordered when the position
is inside the map. -/
lemma chaseDemote_bounds (m : Monster) (radius now : ℚ) (hr : 0 ≤ radius)
    (hx0 : 0 ≤ m.x) (hx1 : m.x ≤ m.mapWidth - m.width) :
    (chaseDemote m radius now).patrolMinX ≤ (chaseDemote m radius now).patrolMaxX := by
  show max 0 (m.x - radius) ≤ min (m.mapWidth - m.width) (m.x + radius)
  have h1 : max 0 (m.x - radius) ≤ m.x := max_le hx0 (by linarith)
  have h2 : m.x ≤ min (m.mapWidth - m.width) (m.x + radius) :=
    le_min hx1 (by linarith)
  linarith

/-- The chase move attempt preserves ordered patrol bounds and an in-map
position. -/
lemma chaseMove_inv (m : Monster) (dir : ℤ) (now : ℚ)
    (hpat : m.patrolMinX ≤ m.patrolMaxX) (hx0 : 0 ≤ m.x)
    (hx1 : m.x ≤ m.mapWidth - m.width) :
    (chaseMove m dir now).patrolMinX ≤ (chaseMove m dir now).patrolMaxX
    ∧ 0 ≤ (chaseMove m dir now).x
    ∧ (chaseMove m dir now).x
        ≤ (chaseMove m dir now).mapWidth - (chaseMove m dir now).width := by
  unfold chaseMove
  dsimp only
  split_ifs with hs hc hc
  · exact ⟨hpat, hc.1, hc.2⟩
  · exact ⟨hpat, hx0, hx1⟩
  · exact ⟨hpat, hc.1, hc.2⟩
  · exact ⟨hpat, hx0, hx1⟩

/-- The chase branch preserves ordered patrol bounds and an in-map
position. -/
lemma updateChase_inv (m : Monster) (env : TickEnv)
    (hpat : m.patrolMinX ≤ m.patrolMaxX) (hx0 : 0 ≤ m.x)
    (hx1 : m.x ≤ m.mapWidth - m.width) :
    (updateChase m env).patrolMinX ≤ (updateChase m env).patrolMaxX
    ∧ 0 ≤ (updateChase m env).x
    ∧ (updateChase m env).x ≤ (updateChase m env).mapWidth - (updateChase m env).width := by
  unfold updateChase
  by_cases h1 : CHASE_TIMEOUT < env.now - (m.lastInteractionTime.getD 0)
  · rw [if_pos h1]
    have hr : (0:ℚ) ≤ (m.patrolMaxX - m.patrolMinX) / 2 :=
      div_nonneg (by linarith) (by norm_num)
    exact ⟨chaseDemote_bounds m _ env.now hr hx0 hx1, hx0, hx1⟩
  · rw [if_neg h1]
    by_cases h2 : (m.targetPlayer.isSome && env.roomLive) = true
    · rw [if_pos h2]
      cases htx : env.targetX with
      | none => exact ⟨hpat, hx0, hx1⟩
      | some tx =>
        dsimp only
        by_cases h3 : |m.x - m.spawnX| < CHASE_RANGE
        · rw [if_pos h3]
          exact chaseMove_inv _ _ env.now hpat hx0 hx1
        · rw [if_neg h3]
          exact ⟨chaseDemote_bounds m 100 env.now (by norm_num) hx0 hx1, hx0, hx1⟩
    · rw [if_neg h2]
      exact ⟨hpat, hx0, hx1⟩

/-- Boundary turning changes only direction and facing. -/
lemma patrolTurn_proj (m : Monster) (flip : Bool) :
    (patrolTurn m flip).x = m.x ∧ (patrolTurn m flip).patrolMinX = m.patrolMinX
    ∧ (patrolTurn m flip).patrolMaxX = m.patrolMaxX
    ∧ (patrolTurn m flip).mapWidth = m.mapWidth
    ∧ (patrolTurn m flip).width = m.width := by
  unfold patrolTurn
  split_ifs <;> exact ⟨rfl, rfl, rfl, rfl, rfl⟩

/-- The patrol move step leaves the patrol bounds and the map geometry
unchanged. -/
lemma patrolMove_proj (m : Monster) :
    (patrolMove m).patrolMinX = m.patrolMinX
    ∧ (patrolMove m).patrolMaxX = m.patrolMaxX
    ∧ (patrolMove m).mapWidth = m.mapWidth
    ∧ (patrolMove m).width = m.width := by
  unfold patrolMove
  dsimp only
  split_ifs <;> exact ⟨rfl, rfl, rfl, rfl⟩

/-- The safety-net clamp lands inside [0, mapWidth − width] whenever that
interval is nonempty, and leaves the patrol bounds unchanged. -/
lemma clampToMap_inv (m : Monster) (h : 0 ≤ m.mapWidth - m.width) :
    0 ≤ (clampToMap m).x
    ∧ (clampToMap m).x ≤ (clampToMap m).mapWidth - (clampToMap m).width
    ∧ (clampToMap m).patrolMinX = m.patrolMinX
    ∧ (clampToMap m).patrolMaxX = m.patrolMaxX := by
  unfold clampToMap
  dsimp only
  split_ifs with h1 h2 h3 <;> refine ⟨?_, ?_, rfl, rfl⟩ <;> dsimp only <;> linarith

/-- C6 amended: one updateMonsterAI step preserves the joint invariant
patrolMinX ≤ patrolMaxX ∧ 0 ≤ x ≤ mapWidth − width for every monster. The
invariant is preserved by the tick but not established by it: spawnMonster
accepts client-supplied positions and surface bounds that violate it (see
the counterexample), and static, knocked-back and freshly demoted monsters
keep their previous x. -/
theorem updateMonsterAI_preserves_invariants (m : Monster) (env : TickEnv)
    (hpat : m.patrolMinX ≤ m.patrolMaxX) (hx0 : 0 ≤ m.x)
    (hx1 : m.x ≤ m.mapWidth - m.width) :
    (updateMonsterAI m env).patrolMinX ≤ (updateMonsterAI m env).patrolMaxX
    ∧ 0 ≤ (updateMonsterAI m env).x
    ∧ (updateMonsterAI m env).x
        ≤ (updateMonsterAI m env).mapWidth - (updateMonsterAI m env).width := by
  unfold updateMonsterAI
  split_ifs with h1 h2 h3 h4
  · exact ⟨hpat, hx0, hx1⟩
  · exact ⟨hpat, hx0, hx1⟩
  · exact updateChase_inv m env hpat hx0 hx1
  · have hp1 := patrolTurn_proj m env.patrolFlip
    have hp2 := patrolMove_proj (patrolTurn m env.patrolFlip)
    have hmw : 0 ≤ (patrolMove (patrolTurn m env.patrolFlip)).mapWidth
        - (patrolMove (patrolTurn m env.patrolFlip)).width := by
      rw [hp2.2.2.1, hp2.2.2.2, hp1.2.2.2.1, hp1.2.2.2.2]
      linarith
    have hc := clampToMap_inv (patrolMove (patrolTurn m env.patrolFlip)) hmw
    refine ⟨?_, ?_, ?_⟩
    · show (clampToMap (patrolMove (patrolTurn m env.patrolFlip))).patrolMinX
        ≤ (clampToMap (patrolMove (patrolTurn m env.patrolFlip))).patrolMaxX
      rw [hc.2.2.1, hc.2.2.2, hp2.1, hp2.2.1, hp1.2.1, hp1.2.2.1]
      exact hpat
    · exact hc.1
    · exact hc.2.1
  · exact ⟨hpat, hx0, hx1⟩

/-- C6 witness: the amended theorem evaluated on a well-formed monster. -/
theorem updateMonsterAI_preserves_invariants_witness :
    (updateMonsterAI plainMonster ⟨1000, false, false, none⟩).patrolMinX
      ≤ (updateMonsterAI plainMonster ⟨1000, false, false, none⟩).patrolMaxX
    ∧ 0 ≤ (updateMonsterAI plainMonster ⟨1000, false, false, none⟩).x
    ∧ (updateMonsterAI plainMonster ⟨1000, false, false, none⟩).x
        ≤ (updateMonsterAI plainMonster ⟨1000, false, false, none⟩).mapWidth
          - (updateMonsterAI plainMonster ⟨1000, false, false, none⟩).width :=
  updateMonsterAI_preserves_invariants plainMonster ⟨1000, false, false, none⟩
    (by norm_num [plainMonster]) (by norm_num [plainMonster])
    (by norm_num [plainMonster])

/-- Catalog entry of the static testDummy type as a client may supply it. -/
def cexTypeData : MonsterTypeData :=
  ⟨some 80, none, some 40, some 40, some "static", none, none, none⟩

/-- Client-supplied spawn position with x outside the map and a surface
lying wholly beyond the map width. initMapMonsters passes both through to
spawnMonster unvalidated. -/
def cexSpawner : SpawnerData :=
  ⟨some (-100), some 300, some 10000, some 200, some 1000, some 300, none⟩

/-- The monster spawnMonster registers for that spawn position. -/
def cexMonster : Monster :=
  (spawnMonster "henesys" "testDummy" cexTypeData cexSpawner none none
    "m_1" ⟨0, 0, 1⟩ 0).1

/-- Tick environment for the counterexample tick. -/
def cexEnv : TickEnv := ⟨50, false, false, none⟩

/-- The explicit value of cexMonster: inverted patrol bounds
(10050 > 950) and x = −100 outside the map. -/
def cexMonsterLit : Monster := {
  id := "m_1"
  type := "testDummy"
  x := -100
  y := 300
  hp := 80
  maxHp := 80
  direction := -1
  facing := "left"
  aiState := "idle"
  aiType := "static"
  velocityX := 0
  velocityY := 0
  speed := 4/5
  isDead := false
  isMiniBoss := false
  isEliteMonster := false
  isTrialBoss := false
  isShiny := false
  width := 40
  height := 40
  mapWidth := 1000
  groundY := 300
  spawnTime := 0
  lastUpdate := 0
  spawnX := -100
  spawnY := 300
  patrolSurfaceX := some 10000
  patrolSurfaceWidth := some 200
  patrolMinX := 10050
  patrolMaxX := 950
  originalMaxHp := none
  originalDamage := none
  damage := none
  canJump := false
  jumpForce := -8
  isJumping := false
  aggroRange := 250
  chaseStartTime := 0
  knockbackEndTime := none
  lastInteractionTime := none
  targetPlayer := none }

/-- C6 counterexample: after a tick on the spawned monster the claimed
invariant fails in both parts — the patrol bounds stay inverted
(patrolMaxX = 950 < 10050 = patrolMinX) and the monster, idle (not
chasing), sits at x = −100 < 0 although 0 ≤ mapWidth − width = 960. The
state is reachable: initMapMonsters forwards the client's spawn position
and surface bounds to spawnMonster unvalidated, and the static monster's
tick only zeroes velocityX. -/
theorem updateMonsterAI_tick_invariant_cex :
    (updateMonsterAI cexMonster cexEnv).patrolMaxX
      < (updateMonsterAI cexMonster cexEnv).patrolMinX
    ∧ (updateMonsterAI cexMonster cexEnv).aiState ≠ "chasing"
    ∧ (updateMonsterAI cexMonster cexEnv).x < 0
    ∧ 0 ≤ (updateMonsterAI cexMonster cexEnv).mapWidth
        - (updateMonsterAI cexMonster cexEnv).width := by
  have hmon : cexMonster = cexMonsterLit := by
    norm_num [cexMonster, spawnMonster, cexTypeData, cexSpawner, jsOrQ,
      jsOrStr, jsOrB, EDGE_BUFFER, MIN_PATROL_DISTANCE, MONSTER_SPEED,
      SHINY_spawnChance, isExcludedMap, strStarts, excludedMapStarts,
      cexMonsterLit]
    decide
  rw [hmon]
  have hmw : (updateMonsterAI cexMonsterLit cexEnv).mapWidth = 1000 := by decide
  have hw : (updateMonsterAI cexMonsterLit cexEnv).width = 40 := by decide
  refine ⟨by decide, by decide, by decide, ?_⟩
  rw [hmw, hw]
  norm_num

end BennSauce
